import Mathlib

/-!
Verification of the bundle command orchestration pipeline of cifuzz.

The definitions below are a shallow embedding of the Go sources:
the data model of the bundle command (build-system kinds, the environment of
one invocation), the control flow of PreRunE and RunE, the writer wiring of
SetUpBundleLogging, and the auth-status query GetAuthStatus. External
collaborators that are called but whose code is not part of the orchestration
core (project-config parsing, the fuzz-test resolver, the build-output file
writer, the bundler delegate, the token store and API client) are modelled as
oracle fields of the environment, or, where the specification pins their
behaviour down, as definitions modelled from the specification (each such
definition says so in its doc comment).
-/

/-- The enumerated build-system kinds of the data model
(config.BuildSystemCMake and friends). -/
inductive BuildSystem
  | cmake
  | bazel
  | maven
  | gradle
  | nodejs
  | other
deriving DecidableEq, Repr, Fintype

/-- Outcome of the delegate call bundler.New(opts).Bundle(): success,
an expected build failure (an error matching cmdutils.ExecError), or any
other, unexpected error. -/
inductive BundleOutcome
  | success
  | execFailure
  | otherFailure
deriving DecidableEq, Repr, Fintype

/-- The cause of a pipeline error, following the error taxonomy:
log-setup failure, config-parse failure, the platform gate failing with
UnsupportedPlatform, a resolution failure, the NodeJS feature gate of
options.Validate (FeatureNotEnabled in the taxonomy), and a failure of the
inner bundler.Opts.Validate call. -/
inductive Cause
  | logSetup
  | configParse
  | unsupportedPlatform
  | resolution
  | featureNotEnabled
  | innerValidate
deriving DecidableEq, Repr, Fintype

/-- An error returned by the pipeline: a silenced error produced by
cmdutils.WrapSilentError at the point of detection, the sentinel
cmdutils.ErrSilent returned after an expected build failure was already
reported, or the unexpected delegate error returned unmodified to the
caller. -/
inductive PipeErr
  | wrappedSilent (c : Cause)
  | errSilent
  | delegateFailure
deriving DecidableEq, Repr, Fintype

/-- The observable steps of one invocation of the bundle command, in the
order the Go code performs them. The loggingSetup step is the call to
SetUpBundleLogging, which creates the log directory and opens (creates and
truncates) the log files. -/
inductive Step
  | bindFlags
  | loggingSetup
  | parseConfig
  | platformGate
  | resolveTests
  | validateOpts
  | createSpinner
  | delegate
  | stopSpinnerError
  | printBuildLogOnStdout
  | printErrorNoTrace
  | stopSpinnerSuccess
  | printBuildLogPath
  | printSuccess
deriving DecidableEq, Repr, Fintype

/-- The environment of one invocation of the bundle command: the determined
build system, whether the host OS is Linux (runtime.GOOS), the
CIFUZZ_ALLOW_UNSUPPORTED_PLATFORMS override (config.AllowUnsupportedPlatforms),
the mode flag logging.ShouldLogBuildToFile, the outcomes of the external
fallible collaborators (SetUpBundleLogging file creation,
config.FindAndParseProjectConfig, resolve.FuzzTestArgument,
bundler.Opts.Validate) and the outcome of the delegate call. -/
structure Env where
  buildSystem : BuildSystem
  linuxHost : Bool
  allowUnsupportedPlatforms : Bool
  shouldLogBuildToFile : Bool
  logSetupOk : Bool
  configParseOk : Bool
  resolveOk : Bool
  innerValidateOk : Bool
  delegateOutcome : BundleOutcome
deriving DecidableEq, Repr

/-- Finiteness of the invocation environment, via the evident equivalence
with a product of finite types. -/
instance : Fintype Env :=
  Fintype.ofEquiv
    (BuildSystem × Bool × Bool × Bool × Bool × Bool × Bool × Bool × BundleOutcome)
    { toFun := fun x => ⟨x.1, x.2.1, x.2.2.1, x.2.2.2.1, x.2.2.2.2.1,
        x.2.2.2.2.2.1, x.2.2.2.2.2.2.1, x.2.2.2.2.2.2.2.1, x.2.2.2.2.2.2.2.2⟩
      invFun := fun e => ⟨e.buildSystem, e.linuxHost, e.allowUnsupportedPlatforms,
        e.shouldLogBuildToFile, e.logSetupOk, e.configParseOk, e.resolveOk,
        e.innerValidateOk, e.delegateOutcome⟩
      left_inv := fun ⟨_, _, _, _, _, _, _, _, _⟩ => rfl
      right_inv := fun ⟨_, _, _, _, _, _, _, _, _⟩ => rfl }

/-- The platform compatibility gate of PreRunE: bundling for Maven and
Gradle is OS independent; every other kind requires a Linux host unless the
unsupported-platforms override is set. True means the gate rejects. -/
def platformGateRejects (env : Env) : Bool :=
  !env.linuxHost
    && !(env.buildSystem == .maven || env.buildSystem == .gradle)
    && !env.allowUnsupportedPlatforms

/-- Modelled from the spec: config.ValidateBuildSystem validates the
determined kind against the set of kinds the tool understands; every member
of the enumerated BuildSystem type is a recognized kind, so over this type
the validation always passes. The Go function is not part of the given
sources. -/
def validateBuildSystem (_bs : BuildSystem) : Option Cause :=
  none

/-- The Validate method of the bundle command options: first
config.ValidateBuildSystem, then the NodeJS feature gate (NodeJS requires
the unsupported-platforms override), then the inner bundler.Opts.Validate
call whose outcome is an oracle of the environment. -/
def optionsValidate (env : Env) : Option PipeErr :=
  match validateBuildSystem env.buildSystem with
  | some c => some (.wrappedSilent c)
  | none =>
    if env.buildSystem == .nodejs && !env.allowUnsupportedPlatforms then
      some (.wrappedSilent .featureNotEnabled)
    else if env.innerValidateOk then
      none
    else
      some (.wrappedSilent .innerValidate)

/-- The PreRunE hook of the bundle command: bind flags, set up logging,
split the args at the dash (pure list bookkeeping, not observable here),
parse the project config, run the platform gate, resolve the fuzz-test
arguments, then validate the options. Returns the trace of executed steps
and the error, if any. -/
def PreRunE (env : Env) : List Step × Option PipeErr :=
  if !env.logSetupOk then
    ([.bindFlags, .loggingSetup], some (.wrappedSilent .logSetup))
  else if !env.configParseOk then
    ([.bindFlags, .loggingSetup, .parseConfig], some (.wrappedSilent .configParse))
  else if platformGateRejects env then
    ([.bindFlags, .loggingSetup, .parseConfig, .platformGate],
      some (.wrappedSilent .unsupportedPlatform))
  else if !env.resolveOk then
    ([.bindFlags, .loggingSetup, .parseConfig, .platformGate, .resolveTests],
      some (.wrappedSilent .resolution))
  else
    ([.bindFlags, .loggingSetup, .parseConfig, .platformGate, .resolveTests, .validateOpts],
      optionsValidate env)

/-- The RunE hook of the bundle command: in file-logging mode create the
progress spinner, call the delegate, then classify the outcome. An expected
build failure stops the spinner with the error style, prints the build log
on stdout, prints the error without a stack trace and returns
cmdutils.ErrSilent; an unexpected failure is returned unmodified; success
stops the spinner with the success style, prints the path to the build log
and the success message. -/
def RunE (env : Env) : List Step × Option PipeErr :=
  let spinner : List Step := if env.shouldLogBuildToFile then [.createSpinner] else []
  match env.delegateOutcome with
  | .success =>
      (spinner ++ [.delegate]
        ++ (if env.shouldLogBuildToFile then [.stopSpinnerSuccess, .printBuildLogPath] else [])
        ++ [.printSuccess], none)
  | .execFailure =>
      (spinner ++ [.delegate]
        ++ (if env.shouldLogBuildToFile then [.stopSpinnerError, .printBuildLogOnStdout] else [])
        ++ [.printErrorNoTrace], some .errSilent)
  | .otherFailure =>
      (spinner ++ [.delegate]
        ++ (if env.shouldLogBuildToFile then [.stopSpinnerError, .printBuildLogOnStdout] else []),
        some .delegateFailure)

/-- One invocation of the bundle pipeline under the cobra execution
semantics: RunE runs exactly when PreRunE returned no error. -/
def runPipeline (env : Env) : List Step × Option PipeErr :=
  match PreRunE env with
  | (t, some e) => (t, some e)
  | (t, none) =>
      let (t2, e2) := RunE env
      (t ++ t2, e2)

/-- The elementary output sinks a build writer can reach: the terminal
stdout stream (cmd.OutOrStdout), the terminal stderr stream
(cmd.OutOrStderr), the per-run build log file, and the persistent verbose
secondary log file (log.VerboseSecondaryOutput). -/
inductive Sink
  | terminalStdout
  | terminalStderr
  | buildLogFile
  | verboseLogFile
deriving DecidableEq, Repr

/-- A fan-out writer, modelled as the list of elementary sinks a write
reaches, with multiplicity: one write to the writer performs one write to
each listed sink. io.MultiWriter concatenates the sink lists. -/
def multiWriter (a b : List Sink) : List Sink :=
  a ++ b

/-- Modelled from the spec: logging.BuildOutputToFile, not part of the given
sources, returns a writer to the dedicated build-output log file that
receives all build-tool output in file-logging mode. -/
def buildOutputToFile : List Sink :=
  [.buildLogFile]

/-- The writer of the persistent verbose secondary log file opened by
SetUpBundleLogging. -/
def verboseSecondaryOutput : List Sink :=
  [.verboseLogFile]

/-- The pair of build writers SetUpBundleLogging stores into the options. -/
structure LogWriters where
  buildStdout : List Sink
  buildStderr : List Sink
deriving DecidableEq, Repr

/-- The writer wiring of SetUpBundleLogging after the log files were opened
successfully. In file-logging mode the stdout writer fans out to the build
output file writer and the verbose file, and the stderr writer fans out to
the whole stdout writer and the verbose file again; in interactive mode each
writer fans out to its own terminal stream and the verbose file. -/
def SetUpBundleLogging (shouldLogBuildToFile : Bool) : LogWriters :=
  if shouldLogBuildToFile then
    let buildStdout := multiWriter buildOutputToFile verboseSecondaryOutput
    { buildStdout := buildStdout
      buildStderr := multiWriter buildStdout verboseSecondaryOutput }
  else
    { buildStdout := multiWriter [.terminalStdout] verboseSecondaryOutput
      buildStderr := multiWriter [.terminalStderr] verboseSecondaryOutput }

/-- A resolution failure of the fuzz-test reference resolver: an empty token
list for the Other kind, an unknown fuzz test, or an ambiguous basename. -/
inductive ResolveError
  | noFuzzTestsSpecified
  | noSuchFuzzTest
  | ambiguousFuzzTest
deriving DecidableEq, Repr

/-- The last path component of an executable path, used when a token for the
Other kind is matched as a basename. -/
def baseName (p : String) : String :=
  (p.splitOn "/").getLastD p

/-- Resolution of one token for the Other kind: the token is either a direct
path to a built executable, or a basename searched recursively, failing when
no file or more than one file matches. The project is abstracted to the list
of executable paths the recursive search can find. -/
def resolveExecutable (executables : List String) (arg : String) :
    Except ResolveError String :=
  if arg ∈ executables then
    .ok arg
  else
    match executables.filter (fun p => baseName p == arg) with
    | [] => .error .noSuchFuzzTest
    | [p] => .ok p
    | _ :: _ :: _ => .error .ambiguousFuzzTest

/-- Modelled from the spec: resolve.FuzzTestArgument, not part of the given
sources. The project is abstracted to the ordered list of fuzz tests
discoverable from its build configuration (declared) and the list of built
executable paths (executables). For the CMake, Bazel, Maven, Gradle and
NodeJS kinds an empty token list resolves to every discoverable fuzz test,
deduplicated and in declaration order, and each supplied token must name a
declared fuzz test; for the Other kind an empty token list is an error and
each token is resolved as an executable path or basename. -/
def FuzzTestArgument (bs : BuildSystem) (args : List String)
    (declared : List String) (executables : List String) :
    Except ResolveError (List String) :=
  match bs with
  | .other =>
    match args with
    | [] => .error .noFuzzTestsSpecified
    | _ => args.mapM (resolveExecutable executables)
  | _ =>
    if args.isEmpty then
      .ok declared.dedup
    else if args.all (fun a => declared.contains a) then
      .ok args.dedup
    else
      .error .noSuchFuzzTest

/-- The chars of one identifier, prefixed by its length in unary, used by
the log suffix encoding. -/
def encodeOne (s : List Char) : List Char :=
  List.replicate s.length 'l' ++ '#' :: s

/-- The concatenated encoding of a list of identifiers. -/
def encodeList : List (List Char) → List Char
  | [] => []
  | s :: rest => encodeOne s ++ encodeList rest

/-- Modelled from the spec: logging.SuffixForLog, not part of the given
sources, derives a deterministic, collision-resistant log-file suffix from
the resolved fuzz-test identifier list, so that two different lists yield
different suffixes and equal lists yield equal suffixes. -/
def SuffixForLog (fuzzTests : List String) : String :=
  ⟨encodeList (fuzzTests.map (fun s => s.data))⟩

/-- The environment of GetAuthStatus: the token store lookup
login.GetToken, and the API validity check login.CheckValidToken against the
client for the given server, returning none on success and the error
otherwise. -/
structure AuthEnv where
  getToken : String → String
  checkValidToken : String → String → Option String

/-- The result of GetAuthStatus, together with whether the token-validity
check against the API was performed. -/
structure AuthResult where
  ok : Bool
  err : Option String
  checkedWithAPI : Bool
deriving DecidableEq, Repr

/-- GetAuthStatus for a server: an empty stored token yields (false, nil)
without contacting the API; a stored token failing the validity check yields
false together with that error; otherwise (true, nil). -/
def GetAuthStatus (env : AuthEnv) (server : String) : AuthResult :=
  let token := env.getToken server
  if token == "" then
    { ok := false, err := none, checkedWithAPI := false }
  else
    match env.checkValidToken server token with
    | some e => { ok := false, err := some e, checkedWithAPI := true }
    | none => { ok := true, err := none, checkedWithAPI := true }

/-- A token store with no stored token, with an API check that would
succeed. -/
def authEnvEmpty : AuthEnv :=
  { getToken := fun _ => "", checkValidToken := fun _ _ => none }

/-- A token store with a stored token that the API check rejects. -/
def authEnvRevoked : AuthEnv :=
  { getToken := fun _ => "tok", checkValidToken := fun _ _ => some "invalid token" }

/-! Helper lemmas for the injectivity of the log suffix encoding. -/

/-- A list starting with a maximal run of the char a followed by a char
other than a determines the run length, that char and the tail. -/
theorem replicate_append_cons_inj {a b c : Char} {l l' : List Char} :
    ∀ {n m : Nat}, b ≠ a → c ≠ a →
      List.replicate n a ++ b :: l = List.replicate m a ++ c :: l' →
      n = m ∧ b = c ∧ l = l' := by
  intro n
  induction n with
  | zero =>
    intro m hb hc h
    cases m with
    | zero =>
      simp only [List.replicate_zero, List.nil_append, List.cons.injEq] at h
      exact ⟨rfl, h.1, h.2⟩
    | succ m =>
      simp only [List.replicate_zero, List.replicate_succ, List.nil_append,
        List.cons_append, List.cons.injEq] at h
      exact absurd h.1 hb
  | succ n ih =>
    intro m hb hc h
    cases m with
    | zero =>
      simp only [List.replicate_zero, List.replicate_succ, List.nil_append,
        List.cons_append, List.cons.injEq] at h
      exact absurd h.1.symm hc
    | succ m =>
      simp only [List.replicate_succ, List.cons_append, List.cons.injEq] at h
      obtain ⟨hn, hbc, hl⟩ := ih hb hc h.2
      exact ⟨by omega, hbc, hl⟩

/-- The suffix encoding of a list of identifiers is injective. -/
theorem encodeList_inj : ∀ {xs ys : List (List Char)},
    encodeList xs = encodeList ys → xs = ys := by
  intro xs
  induction xs with
  | nil =>
    intro ys h
    cases ys with
    | nil => rfl
    | cons y ys =>
      exfalso
      simp only [encodeList, encodeOne] at h
      exact absurd h (by simp)
  | cons x xs ih =>
    intro ys h
    cases ys with
    | nil =>
      exfalso
      simp only [encodeList, encodeOne] at h
      exact absurd h (by simp)
    | cons y ys =>
      simp only [encodeList, encodeOne, List.append_assoc, List.cons_append] at h
      obtain ⟨hlen, -, htail⟩ :=
        replicate_append_cons_inj (by decide) (by decide) h
      obtain ⟨hx, hrest⟩ := List.append_inj htail hlen
      rw [hx, ih hrest]

/-! The claim theorems. -/

/-- C1: the claim that the platform gate executes before fuzz-test
resolution, resolution before logging setup, and logging setup before the
delegate call, so that no log file is created for a gate-rejected request,
is false: on a non-Linux host with a CMake project and no override, the
pipeline performs the logging setup step (which creates and opens the log
files) and afterwards fails with the UnsupportedPlatform error of the gate;
moreover in a fully successful run the logging setup step precedes the
resolution step in the trace. -/
theorem C1_counterexample :
    ((runPipeline ⟨.cmake, false, false, true, true, true, true, true, .success⟩).1.contains
        .loggingSetup = true
      ∧ (runPipeline ⟨.cmake, false, false, true, true, true, true, true, .success⟩).2
        = some (.wrappedSilent .unsupportedPlatform))
    ∧ ((runPipeline ⟨.cmake, true, false, true, true, true, true, true, .success⟩).1.indexOf
          .loggingSetup
        < (runPipeline ⟨.cmake, true, false, true, true, true, true, true, .success⟩).1.indexOf
          .resolveTests) := by
  decide

set_option maxHeartbeats 4000000 in
/-- C1 (amended): in every invocation of the bundle pipeline, logging setup
(the creation and opening of the log files) executes before the platform
compatibility gate check, the gate check executes before fuzz-test reference
resolution, and resolution executes before the delegate call; in particular,
whenever logging setup succeeds and the gate rejects the request, the log
files have already been created. -/
theorem C1_order (env : Env) :
    (Step.platformGate ∈ (runPipeline env).1 →
      (runPipeline env).1.indexOf .loggingSetup
        < (runPipeline env).1.indexOf .platformGate)
    ∧ (Step.resolveTests ∈ (runPipeline env).1 →
      (runPipeline env).1.indexOf .platformGate
        < (runPipeline env).1.indexOf .resolveTests)
    ∧ (Step.delegate ∈ (runPipeline env).1 →
      (runPipeline env).1.indexOf .resolveTests
        < (runPipeline env).1.indexOf .delegate)
    ∧ (env.logSetupOk = true → platformGateRejects env = true →
      Step.loggingSetup ∈ (runPipeline env).1) := by
  obtain ⟨bs, linux, allow, shouldLog, logOk, configOk, resolveOk, innerOk, outcome⟩ := env
  cases bs <;> cases linux <;> cases allow <;> cases shouldLog <;> cases logOk <;>
    cases configOk <;> cases resolveOk <;> cases innerOk <;> cases outcome <;> decide

/-- Witness for C1_order at concrete environments: a fully successful Linux
run exercises the three ordering conjuncts, and a rejected non-Linux run
exercises the log-file conjunct. -/
theorem C1_order_witness :
    ((runPipeline ⟨.cmake, true, false, true, true, true, true, true, .success⟩).1.indexOf
        .loggingSetup
      < (runPipeline ⟨.cmake, true, false, true, true, true, true, true, .success⟩).1.indexOf
        .platformGate)
    ∧ ((runPipeline ⟨.cmake, true, false, true, true, true, true, true, .success⟩).1.indexOf
        .platformGate
      < (runPipeline ⟨.cmake, true, false, true, true, true, true, true, .success⟩).1.indexOf
        .resolveTests)
    ∧ ((runPipeline ⟨.cmake, true, false, true, true, true, true, true, .success⟩).1.indexOf
        .resolveTests
      < (runPipeline ⟨.cmake, true, false, true, true, true, true, true, .success⟩).1.indexOf
        .delegate)
    ∧ Step.loggingSetup
        ∈ (runPipeline ⟨.cmake, false, false, true, true, true, true, true, .success⟩).1 :=
  ⟨(C1_order ⟨.cmake, true, false, true, true, true, true, true, .success⟩).1 (by decide),
   (C1_order ⟨.cmake, true, false, true, true, true, true, true, .success⟩).2.1 (by decide),
   (C1_order ⟨.cmake, true, false, true, true, true, true, true, .success⟩).2.2.1 (by decide),
   (C1_order ⟨.cmake, false, false, true, true, true, true, true, .success⟩).2.2.2 rfl
     (by decide)⟩

/-- C2: the claim that in both logging modes the sink set of the stderr
writer is a superset of the sink set of the stdout writer is false: in
interactive mode the stdout writer reaches the terminal stdout stream while
the stderr writer does not. -/
theorem C2_counterexample :
    ((SetUpBundleLogging false).buildStdout.contains .terminalStdout = true)
    ∧ ((SetUpBundleLogging false).buildStderr.contains .terminalStdout = false) := by
  decide

/-- C2 (amended): after SetUpBundleLogging returns successfully, in both
modes the build stdout and stderr writers are non-nil fan-out writers; in
file-logging mode every sink of the stdout writer is also a sink of the
stderr writer; in interactive mode each writer reaches exactly its own
terminal stream plus the verbose log file, so the two writers reach the same
number of destinations but the sink set of stderr is not a superset of the
sink set of stdout. -/
theorem C2_writers :
    ((SetUpBundleLogging true).buildStdout.isEmpty = false)
    ∧ ((SetUpBundleLogging true).buildStderr.isEmpty = false)
    ∧ ((SetUpBundleLogging false).buildStdout.isEmpty = false)
    ∧ ((SetUpBundleLogging false).buildStderr.isEmpty = false)
    ∧ ((SetUpBundleLogging true).buildStdout.all
        (fun s => (SetUpBundleLogging true).buildStderr.contains s) = true)
    ∧ ((SetUpBundleLogging false).buildStdout = [.terminalStdout, .verboseLogFile])
    ∧ ((SetUpBundleLogging false).buildStderr = [.terminalStderr, .verboseLogFile]) := by
  decide

set_option maxHeartbeats 4000000 in
/-- C3: for every build-system kind other than Maven and Gradle, a run on a
non-Linux host with the unsupported-platforms override unset (and the two
earlier pipeline stages succeeding) fails with the UnsupportedPlatform
error and never reaches the delegate; with the override set the platform
gate passes; for Maven and Gradle the gate passes on every host OS. -/
theorem C3_platformGate (env : Env) :
    (env.buildSystem ≠ .maven → env.buildSystem ≠ .gradle →
      env.linuxHost = false → env.allowUnsupportedPlatforms = false →
      env.logSetupOk = true → env.configParseOk = true →
      (runPipeline env).2 = some (.wrappedSilent .unsupportedPlatform)
        ∧ Step.delegate ∉ (runPipeline env).1)
    ∧ (env.allowUnsupportedPlatforms = true → platformGateRejects env = false)
    ∧ ((env.buildSystem = .maven ∨ env.buildSystem = .gradle) →
      platformGateRejects env = false) := by
  obtain ⟨bs, linux, allow, shouldLog, logOk, configOk, resolveOk, innerOk, outcome⟩ := env
  cases bs <;> cases linux <;> cases allow <;> cases shouldLog <;> cases logOk <;>
    cases configOk <;> cases resolveOk <;> cases innerOk <;> cases outcome <;> decide

/-- Witness for C3_platformGate at concrete environments: a CMake run on a
non-Linux host without the override is rejected and never reaches the
delegate; a Bazel run with the override passes the gate; a Maven run on a
non-Linux host passes the gate. -/
theorem C3_platformGate_witness :
    ((runPipeline ⟨.cmake, false, false, true, true, true, true, true, .success⟩).2
      = some (.wrappedSilent .unsupportedPlatform)
      ∧ Step.delegate ∉ (runPipeline ⟨.cmake, false, false, true, true, true, true, true,
          .success⟩).1)
    ∧ platformGateRejects ⟨.bazel, false, true, true, true, true, true, true, .success⟩ = false
    ∧ platformGateRejects ⟨.maven, false, false, true, true, true, true, true, .success⟩ = false :=
  ⟨(C3_platformGate ⟨.cmake, false, false, true, true, true, true, true, .success⟩).1
      (by decide) (by decide) rfl rfl rfl rfl,
   (C3_platformGate ⟨.bazel, false, true, true, true, true, true, true, .success⟩).2.1 rfl,
   (C3_platformGate ⟨.maven, false, false, true, true, true, true, true, .success⟩).2.2
      (Or.inl rfl)⟩

set_option maxHeartbeats 4000000 in
/-- C4: the delegate is never invoked unless both the platform gate and
option validation have passed: every environment whose pipeline trace
contains the delegate step has a passing platform gate and a Validate call
returning no error. -/
theorem C4_delegate_invariant (env : Env) :
    Step.delegate ∈ (runPipeline env).1 →
      platformGateRejects env = false ∧ optionsValidate env = none := by
  obtain ⟨bs, linux, allow, shouldLog, logOk, configOk, resolveOk, innerOk, outcome⟩ := env
  cases bs <;> cases linux <;> cases allow <;> cases shouldLog <;> cases logOk <;>
    cases configOk <;> cases resolveOk <;> cases innerOk <;> cases outcome <;> decide

/-- Witness for C4_delegate_invariant at a fully successful run, whose trace
contains the delegate step. -/
theorem C4_delegate_invariant_witness :
    platformGateRejects ⟨.cmake, true, false, true, true, true, true, true, .success⟩ = false
    ∧ optionsValidate ⟨.cmake, true, false, true, true, true, true, true, .success⟩ = none :=
  C4_delegate_invariant ⟨.cmake, true, false, true, true, true, true, true, .success⟩
    (by decide)

set_option maxHeartbeats 4000000 in
/-- C5: when file-logging mode is active and PreRunE succeeded, a delegate
call returning an expected build failure makes the pipeline stop the
progress spinner with the error style, print the build log on stdout, print
the failure without a stack trace and return the silent already-reported
error; an unexpected delegate failure is returned unmodified instead. -/
theorem C5_failure_classification (env : Env) :
    env.shouldLogBuildToFile = true → (PreRunE env).2 = none →
      (env.delegateOutcome = .execFailure →
        Step.stopSpinnerError ∈ (runPipeline env).1
        ∧ Step.printBuildLogOnStdout ∈ (runPipeline env).1
        ∧ Step.printErrorNoTrace ∈ (runPipeline env).1
        ∧ (runPipeline env).2 = some .errSilent)
      ∧ (env.delegateOutcome = .otherFailure →
        (runPipeline env).2 = some .delegateFailure) := by
  obtain ⟨bs, linux, allow, shouldLog, logOk, configOk, resolveOk, innerOk, outcome⟩ := env
  cases bs <;> cases linux <;> cases allow <;> cases shouldLog <;> cases logOk <;>
    cases configOk <;> cases resolveOk <;> cases innerOk <;> cases outcome <;> decide

/-- Witness for C5_failure_classification at a file-logging run whose
delegate reports an expected build failure. -/
theorem C5_failure_classification_witness :
    Step.stopSpinnerError
      ∈ (runPipeline ⟨.cmake, true, false, true, true, true, true, true, .execFailure⟩).1
    ∧ Step.printBuildLogOnStdout
      ∈ (runPipeline ⟨.cmake, true, false, true, true, true, true, true, .execFailure⟩).1
    ∧ Step.printErrorNoTrace
      ∈ (runPipeline ⟨.cmake, true, false, true, true, true, true, true, .execFailure⟩).1
    ∧ (runPipeline ⟨.cmake, true, false, true, true, true, true, true, .execFailure⟩).2
      = some .errSilent :=
  ((C5_failure_classification ⟨.cmake, true, false, true, true, true, true, true,
      .execFailure⟩) rfl (by decide)).1 rfl

set_option maxHeartbeats 4000000 in
/-- C7: when the build system is NodeJS and the unsupported-platforms
override is unset, option validation fails with the FeatureNotEnabled error
and the pipeline never reaches the delegate; with the override set, NodeJS
passes this check. -/
theorem C7_nodejs_gate (env : Env) :
    env.buildSystem = .nodejs →
      (env.allowUnsupportedPlatforms = false →
        optionsValidate env = some (.wrappedSilent .featureNotEnabled)
        ∧ Step.delegate ∉ (runPipeline env).1)
      ∧ (env.allowUnsupportedPlatforms = true →
        optionsValidate env ≠ some (.wrappedSilent .featureNotEnabled)) := by
  obtain ⟨bs, linux, allow, shouldLog, logOk, configOk, resolveOk, innerOk, outcome⟩ := env
  cases bs <;> cases linux <;> cases allow <;> cases shouldLog <;> cases logOk <;>
    cases configOk <;> cases resolveOk <;> cases innerOk <;> cases outcome <;> decide

/-- Witness for C7_nodejs_gate at NodeJS environments with the override
unset and set. -/
theorem C7_nodejs_gate_witness :
    (optionsValidate ⟨.nodejs, true, false, true, true, true, true, true, .success⟩
      = some (.wrappedSilent .featureNotEnabled)
      ∧ Step.delegate ∉ (runPipeline ⟨.nodejs, true, false, true, true, true, true, true,
          .success⟩).1)
    ∧ optionsValidate ⟨.nodejs, true, true, true, true, true, true, true, .success⟩
      ≠ some (.wrappedSilent .featureNotEnabled) :=
  ⟨(C7_nodejs_gate ⟨.nodejs, true, false, true, true, true, true, true, .success⟩ rfl).1 rfl,
   (C7_nodejs_gate ⟨.nodejs, true, true, true, true, true, true, true, .success⟩ rfl).2 rfl⟩

/-- C6: for the CMake, Bazel, Maven and Gradle build-system kinds, resolving
an empty fuzz-test token list returns every fuzz test discoverable in the
project, in declaration order (and hence order-stable across repeated calls
with unchanged inputs, resolution being a pure function of its inputs),
while for the Other kind it fails with a resolution error. -/
theorem C6_empty_resolution (declared executables : List String) :
    declared.Nodup →
      (FuzzTestArgument .cmake [] declared executables = .ok declared
        ∧ FuzzTestArgument .bazel [] declared executables = .ok declared
        ∧ FuzzTestArgument .maven [] declared executables = .ok declared
        ∧ FuzzTestArgument .gradle [] declared executables = .ok declared)
      ∧ FuzzTestArgument .other [] declared executables = .error .noFuzzTestsSpecified := by
  intro h
  have hd : declared.dedup = declared := List.dedup_eq_self.mpr h
  refine ⟨⟨?_, ?_, ?_, ?_⟩, rfl⟩ <;> simp [FuzzTestArgument, hd]

/-- Witness for C6_empty_resolution at a fixture project with three declared
fuzz tests. -/
theorem C6_empty_resolution_witness :
    FuzzTestArgument .cmake [] ["ft1", "ft2", "ft3"] [] = .ok ["ft1", "ft2", "ft3"]
    ∧ FuzzTestArgument .other [] ["ft1", "ft2", "ft3"] []
      = .error .noFuzzTestsSpecified :=
  ⟨(C6_empty_resolution ["ft1", "ft2", "ft3"] [] (by decide)).1.1,
   (C6_empty_resolution ["ft1", "ft2", "ft3"] [] (by decide)).2⟩

/-- C8: the log-file suffix is deterministic and injective on fuzz-test
identifier lists: identical lists produce the same suffix and different
lists produce different suffixes. -/
theorem C8_suffix_deterministic_injective (l1 l2 : List String) :
    (l1 = l2 → SuffixForLog l1 = SuffixForLog l2)
    ∧ (l1 ≠ l2 → SuffixForLog l1 ≠ SuffixForLog l2) := by
  constructor
  · intro h
    rw [h]
  · intro hne heq
    apply hne
    have h2 : encodeList (l1.map (fun s => s.data))
        = encodeList (l2.map (fun s => s.data)) := congrArg String.data heq
    have h3 := encodeList_inj h2
    have hinj : Function.Injective (fun s : String => s.data) := by
      intro a b hab
      exact String.ext hab
    exact List.map_injective_iff.mpr hinj h3

/-- Witness for C8_suffix_deterministic_injective at concrete identifier
lists. -/
theorem C8_suffix_witness :
    SuffixForLog ["my_fuzz_test"] = SuffixForLog ["my_fuzz_test"]
    ∧ SuffixForLog ["my_fuzz_test"] ≠ SuffixForLog ["other_test"] :=
  ⟨(C8_suffix_deterministic_injective ["my_fuzz_test"] ["my_fuzz_test"]).1 rfl,
   (C8_suffix_deterministic_injective ["my_fuzz_test"] ["other_test"]).2 (by decide)⟩

/-- C9: in file-logging mode the build stderr writer reaches the verbose
secondary log file exactly twice, once through the inner build-stdout
fan-out, which itself contains the verbose file as a sink, and once through
the outer fan-out of the stderr writer. -/
theorem C9_stderr_verbose_twice :
    (SetUpBundleLogging true).buildStderr.count .verboseLogFile = 2
    ∧ (SetUpBundleLogging true).buildStderr
      = (SetUpBundleLogging true).buildStdout ++ verboseSecondaryOutput
    ∧ (SetUpBundleLogging true).buildStdout.count .verboseLogFile = 1 := by
  decide

/-- C10: for every server, an empty stored token makes GetAuthStatus return
false with no error and without performing the API validity check; a
non-empty token failing the check yields false together with that error;
a non-empty token passing the check yields true with no error. -/
theorem C10_auth_status (env : AuthEnv) (server : String) :
    (env.getToken server = "" →
      GetAuthStatus env server = { ok := false, err := none, checkedWithAPI := false })
    ∧ (env.getToken server ≠ "" →
      (∀ e, env.checkValidToken server (env.getToken server) = some e →
        GetAuthStatus env server = { ok := false, err := some e, checkedWithAPI := true })
      ∧ (env.checkValidToken server (env.getToken server) = none →
        GetAuthStatus env server = { ok := true, err := none, checkedWithAPI := true })) := by
  refine ⟨fun h => ?_, fun h => ⟨fun e he => ?_, fun he => ?_⟩⟩
  · simp [GetAuthStatus, h]
  · simp [GetAuthStatus, beq_iff_eq, h, he]
  · simp [GetAuthStatus, beq_iff_eq, h, he]

/-- Witness for C10_auth_status at a store with no token and a store with a
revoked token. -/
theorem C10_auth_status_witness :
    GetAuthStatus authEnvEmpty "server" = { ok := false, err := none, checkedWithAPI := false }
    ∧ GetAuthStatus authEnvRevoked "server"
      = { ok := false, err := some "invalid token", checkedWithAPI := true } :=
  ⟨(C10_auth_status authEnvEmpty "server").1 rfl,
   ((C10_auth_status authEnvRevoked "server").2 (by decide)).1 "invalid token" rfl⟩
